import Mathlib

/-!
Shallow embedding of the HeavenAndEarth cultivation engine
(`heaven_and_earth/models.py` and the tick orchestrator in `bot.py`).

Python floats are modelled as rationals, machine ints as `Int`/`Nat`.
Calls to `random()` are modelled by an oracle `g : ℕ → ℚ` together with a
counter `k : ℕ` giving the index of the next draw; a function that may
draw returns the updated counter.
-/

namespace HeavenAndEarth

inductive Realm where
  | qiCondensation
  | foundationEstablishment
  deriving DecidableEq, Repr

inductive Stage where
  | initial
  | early
  | middle
  | late
  | peak
  deriving DecidableEq, Repr

inductive QiType where
  | spiritual
  | yin
  | yang
  deriving DecidableEq, Repr

inductive QiQuality where
  | faint
  | thin
  | steady
  | thick
  | condensed
  | highlyConcentrated
  | superdense
  | extremelyDense
  deriving DecidableEq, Repr

/-- Python `REALM_ORDER.index`. -/
def realmIndex : Realm → ℕ
  | .qiCondensation => 0
  | .foundationEstablishment => 1

/-- Python `len(REALM_ORDER)`. -/
def realmCount : ℕ := 2

/-- Python `STAGE_ORDER.index`. -/
def stageIndex : Stage → ℕ
  | .initial => 0
  | .early => 1
  | .middle => 2
  | .late => 3
  | .peak => 4

/-- Python `STAGE_ORDER[i]` for `i < 5`. -/
def stageOfIndex : ℕ → Stage
  | 0 => .initial
  | 1 => .early
  | 2 => .middle
  | 3 => .late
  | _ => .peak

/-- Position of a quality in `QiQuality.order`. -/
def qualityRank : QiQuality → ℕ
  | .faint => 0
  | .thin => 1
  | .steady => 2
  | .thick => 3
  | .condensed => 4
  | .highlyConcentrated => 5
  | .superdense => 6
  | .extremelyDense => 7

/-- Python `QiQuality.is_lower_than`. -/
def isLowerThan (a b : QiQuality) : Bool := qualityRank a < qualityRank b

/-- Python `QiQuality.qi_per_day`. -/
def qiPerDay : QiQuality → ℚ
  | .faint => 1
  | .thin => 2
  | .steady => 4
  | .thick => 8
  | .condensed => 16
  | .highlyConcentrated => 32
  | .superdense => 64
  | .extremelyDense => 128

/-- Python `QiType.gathering_modifier`. -/
def gatheringModifier : QiType → ℚ
  | _ => 1

/-- Python `.value` of a `Realm` member. -/
def realmValue : Realm → String
  | .qiCondensation => "Qi Condensation"
  | .foundationEstablishment => "Foundation Establishment"

/-- Python `.value` of a `Stage` member. -/
def stageValue : Stage → String
  | .initial => "Initial"
  | .early => "Early"
  | .middle => "Middle"
  | .late => "Late"
  | .peak => "Peak"

/-- Python `.value` of a `QiType` member. -/
def qiTypeValue : QiType → String
  | .spiritual => "Spiritual Qi"
  | .yin => "Yin Qi"
  | .yang => "Yang Qi"

/-- Python `.value` of a `QiQuality` member. -/
def qualityValue : QiQuality → String
  | .faint => "Faint"
  | .thin => "Thin"
  | .steady => "Steady"
  | .thick => "Thick"
  | .condensed => "Condensed"
  | .highlyConcentrated => "Highly Concentrated"
  | .superdense => "Superdense"
  | .extremelyDense => "Extremely dense"

def DAYS_PER_YEAR : ℕ := 365
def FOUNDATION_YEARS_TO_FILL : ℕ := 5
def FOUNDATION_FILL_TICKS : ℕ := DAYS_PER_YEAR * FOUNDATION_YEARS_TO_FILL
def SECONDS_PER_TICK : ℕ := 60
def maxQiLayers : ℕ := 15

/-- The mutable state of `CultivationProgress`. -/
structure CultivationProgress where
  realm : Realm := .qiCondensation
  stage : Stage := .initial
  layer : ℕ := 1
  exp : ℚ := 0
  qi_type : QiType := .spiritual
  qi_quality : QiQuality := .faint
  cultivation_rate : ℚ := 1
  foundation_progress : ℚ := 0
  deriving DecidableEq, Repr

namespace CultivationProgress

/-- Python `qi_gathering_rate`. -/
def qiGatheringRate (s : CultivationProgress) : ℚ :=
  qiPerDay s.qi_quality * gatheringModifier s.qi_type

/-- Python `refresh_cultivation_rate`. -/
def refreshCultivationRate (s : CultivationProgress) : CultivationProgress :=
  { s with cultivation_rate := s.qiGatheringRate }

/-- Python `_upgrade_qi_quality_for_layer`, returning the updated state and the
`True`/`False` result. -/
def upgradeQiQualityForLayer (s : CultivationProgress) : CultivationProgress × Bool :=
  if 6 ≤ s.layer ∧ isLowerThan s.qi_quality .thin then
    ({ s with qi_quality := .thin }, true)
  else
    (s, false)

/-- Python `required_exp`. -/
def requiredExpNat (s : CultivationProgress) : ℕ :=
  (realmIndex s.realm + 1) * 100 * max s.layer 1 * (stageIndex s.stage + 1)

/-- Python `required_exp` as a rational (Python returns a number). -/
def requiredExp (s : CultivationProgress) : ℚ := (s.requiredExpNat : ℚ)

/-- Python `is_maxed_out`: at the final realm, maxed means stage `Peak`. -/
def isMaxedOut (s : CultivationProgress) : Bool :=
  s.realm = Realm.foundationEstablishment ∧ s.stage = Stage.peak

/-- Python `is_qi_condensation_cap`. -/
def isQiCondensationCap (s : CultivationProgress) : Bool :=
  s.realm = Realm.qiCondensation ∧ maxQiLayers ≤ s.layer ∧ s.stage = Stage.peak

/-- Python `foundation_bar_active`. -/
def foundationBarActive (s : CultivationProgress) : Bool := s.isQiCondensationCap

/-- Python `layer_ordinal`. -/
def layerOrdinal (s : CultivationProgress) : String :=
  let suffix :=
    if 10 ≤ s.layer % 100 ∧ s.layer % 100 ≤ 20 then "th"
    else match s.layer % 10 with
      | 1 => "st"
      | 2 => "nd"
      | 3 => "rd"
      | _ => "th"
  toString s.layer ++ suffix

/-- Python `stage_label`. -/
def stageLabel (s : CultivationProgress) : String :=
  if s.realm = Realm.qiCondensation then
    stageValue s.stage ++ " " ++ s.layerOrdinal ++ " layer"
  else stageValue s.stage

/-- Python `update_foundation_progress`. -/
def updateFoundationProgress (s : CultivationProgress) (ticks : ℕ) :
    CultivationProgress × List String :=
  if ¬ s.foundationBarActive then (s, [])
  else if 1 ≤ s.foundation_progress then (s, [])
  else
    let previous := s.foundation_progress
    let increment : ℚ := (ticks : ℚ) / (FOUNDATION_FILL_TICKS : ℚ)
    let s' := { s with foundation_progress := min 1 (s.foundation_progress + increment) }
    if previous < 1 ∧ 1 ≤ s'.foundation_progress then
      (s', ["Foundation bar complete—breakthrough chance has reached 100%."])
    else (s', [])

/-- Python `breakthrough_chance`. -/
def breakthroughChance (s : CultivationProgress) : ℚ :=
  if ¬ s.foundationBarActive then 0
  else max 0 (min (1/10 + 9/10 * s.foundation_progress) 1)

/-- Python `attempt_foundation_breakthrough`; the draw oracle `g` and counter `k`
model `random()`. Returns (state, succeeded, message, next counter). -/
def attemptFoundationBreakthrough (g : ℕ → ℚ) (k : ℕ) (s : CultivationProgress) :
    CultivationProgress × Bool × String × ℕ :=
  if ¬ s.foundationBarActive then
    (s, false, "You are not ready to break through yet.", k)
  else
    let chance := s.breakthroughChance
    if g k ≤ chance then
      ({ s with realm := .foundationEstablishment, stage := .initial, layer := 1,
                exp := 0, foundation_progress := 0 },
       true, "Breakthrough successful! You have reached Foundation Establishment.", k + 1)
    else
      ({ s with stage := .late, layer := maxQiLayers, exp := 0, foundation_progress := 0 },
       false,
       "Breakthrough failed. Your foundation wavers; you return to Late 15th layer Qi Condensation.",
       k + 1)

end CultivationProgress

/-- Python `HeavenlyTribulation.resolve` at `danger = 0.25`: returns the message and
the updated draw counter (one `random()` call). -/
def tribulationResolve (g : ℕ → ℚ) (k : ℕ) (targetRealm : Realm) : String × ℕ :=
  if g k < 1/4 then
    ("Tribulation clouds scatter—close call! " ++ realmValue targetRealm ++
       " awaits; cultivation steadies for the next attempt.", k + 1)
  else
    ("Heavenly tribulation overcome! Broke through to " ++ realmValue targetRealm ++ ".", k + 1)

namespace CultivationProgress

/-- Python `breakthrough_realm`. -/
def breakthroughRealm (g : ℕ → ℚ) (k : ℕ) (s : CultivationProgress) :
    CultivationProgress × String × ℕ :=
  if realmIndex s.realm + 1 < realmCount then
    let target := Realm.foundationEstablishment
    let r := tribulationResolve g k target
    ({ s with realm := target, stage := .initial }, r.1, r.2)
  else
    let s' := { s with stage := Stage.peak }
    if s'.realm = Realm.qiCondensation then
      (s', "Reached the pinnacle of " ++ realmValue s'.realm ++ " (Peak " ++
        s'.layerOrdinal ++ " layer).", k)
    else
      (s', "Reached the pinnacle of " ++ realmValue s'.realm ++ " (Peak stage).", k)

/-- Python `_handle_layer_advance` (no draws). -/
def handleLayerAdvance (s : CultivationProgress) : CultivationProgress × String :=
  let r := s.upgradeQiQualityForLayer
  if r.2 then
    let s' := r.1.refreshCultivationRate
    (s', "Advanced to " ++ s'.stageLabel ++ " of " ++ realmValue s'.realm ++
      ". Qi quality refined to " ++ qualityValue s'.qi_quality ++ " " ++
      qiTypeValue s'.qi_type ++ ".")
  else
    (s, "Advanced to " ++ s.stageLabel ++ " of " ++ realmValue s.realm ++ ".")

/-- Python `advance_stage`. -/
def advanceStage (g : ℕ → ℚ) (k : ℕ) (s : CultivationProgress) :
    CultivationProgress × String × ℕ :=
  if stageIndex s.stage + 1 < 5 then
    let s' := { s with stage := stageOfIndex (stageIndex s.stage + 1) }
    (s', "Advanced to " ++ s'.stageLabel ++ " of " ++ realmValue s'.realm ++ ".", k)
  else if s.realm = Realm.qiCondensation ∧ s.layer < maxQiLayers then
    let s' := { s with layer := s.layer + 1, stage := Stage.initial }
    let r := s'.handleLayerAdvance
    (r.1, r.2, k)
  else if s.isQiCondensationCap then
    ({ s with foundation_progress := max s.foundation_progress 0 },
     "Reached " ++ s.stageLabel ++ " of " ++ realmValue s.realm ++
       ". Foundation bar awakened.", k)
  else
    s.breakthroughRealm g k

end CultivationProgress

namespace CultivationProgress

/-- Python `while self.exp >= self.required_exp(): ...` loop inside `add_exp`,
written with a fuel argument as a termination device: every iteration removes
at least 100 exp, so any fuel with `s.exp ≤ 100 * fuel` gives the loop's exact
behaviour (`addExpLoop_fuel_irrelevant` below shows the fuel never runs out). -/
def addExpLoop (g : ℕ → ℚ) : ℕ → ℕ → CultivationProgress →
    CultivationProgress × List String × ℕ
  | 0, k, s => (s, [], k)
  | fuel + 1, k, s =>
    if s.requiredExp ≤ s.exp then
      let s1 := { s with exp := s.exp - s.requiredExp }
      let r := advanceStage g k s1
      if r.1.isQiCondensationCap then
        ({ r.1 with exp := min r.1.exp r.1.requiredExp }, [r.2.1], r.2.2)
      else if r.1.isMaxedOut then
        ({ r.1 with exp := min r.1.exp r.1.requiredExp }, [r.2.1], r.2.2)
      else
        let t := addExpLoop g fuel r.2.2 r.1
        (t.1, r.2.1 :: t.2.1, t.2.2)
    else (s, [], k)

/-- Fuel that certainly dominates the number of loop iterations. -/
def loopFuel (s : CultivationProgress) : ℕ := (Int.ceil s.exp).toNat + 1

/-- Python `add_exp`.  Returns (state, log, next draw counter). -/
def addExp (g : ℕ → ℚ) (k : ℕ) (s : CultivationProgress) (ticks : ℕ) :
    CultivationProgress × List String × ℕ :=
  if s.isMaxedOut then
    let s1 := { s with exp := min (s.exp + s.cultivation_rate * ticks) s.requiredExp }
    let r := s1.updateFoundationProgress ticks
    (r.1, r.2, k)
  else
    let s1 := { s with exp := s.exp + s.cultivation_rate * ticks }
    let t := addExpLoop g s1.loopFuel k s1
    let r := t.1.updateFoundationProgress ticks
    (r.1, t.2.1 ++ r.2, t.2.2)

end CultivationProgress

/-- Lower-cases a string, Python `str.lower` restricted to what the notes use. -/
def strToLower (t : String) : String := ⟨t.data.map Char.toLower⟩

/-- Decides whether the first list starts the second. -/
def leadsList : List Char → List Char → Bool
  | [], _ => true
  | _ :: _, [] => false
  | a :: xs, b :: ys => a = b && leadsList xs ys

/-- Decides whether `pat` occurs inside `l`, Python `pat in l`. -/
def containsList (pat : List Char) : List Char → Bool
  | [] => leadsList pat []
  | b :: ys => leadsList pat (b :: ys) || containsList pat ys

/-- Python `pat in hay` on strings. -/
def strContains (hay pat : String) : Bool := containsList pat.data hay.data

/-- The per-player state touched by the tick orchestrator in `bot.py`
(`Player` fields other than these are inert for the claims at hand). -/
structure PlayerState where
  name : String := "p"
  cultivation : CultivationProgress := {}
  hours_cultivated : ℚ := 0
  tribulations_survived : ℕ := 0
  last_tick_timestamp : ℤ := 0
  tick_buffer : ℚ := 0
  deriving DecidableEq, Repr

namespace PlayerState

/-- Python `Player.apply_ticks`. -/
def applyTicks (g : ℕ → ℚ) (k : ℕ) (p : PlayerState) (ticks : ℕ) :
    PlayerState × List String × ℕ :=
  let p1 := { p with hours_cultivated := p.hours_cultivated + (ticks : ℚ) * 24 }
  let r := CultivationProgress.addExp g k p1.cultivation ticks
  let surv := r.2.1.foldl
    (fun n note =>
      let lowered := strToLower note
      if strContains lowered "tribulation" && strContains lowered "overcome" then n + 1
      else n)
    p1.tribulations_survived
  ({ p1 with cultivation := r.1, tribulations_survived := surv }, r.2.1, r.2.2)

end PlayerState

/-- Python `int()` on a float: truncation toward zero. -/
def pyInt (q : ℚ) : ℤ := if q < 0 then -(Int.floor (-q)) else Int.floor q

namespace PlayerState

/-- Python `PlayerService._apply_time_progression`; `flow` is the externally
resolved `effective_time_flow` (a collaborator per the spec).  The tick count
handed to `apply_ticks` is converted with `toNat`, which agrees with the
source whenever `tick_buffer` and `flow` are non-negative.  Returns
(player, logs, next draw counter, changed flag). -/
def applyTimeProgression (flow : ℚ) (g : ℕ → ℚ) (k : ℕ) (p : PlayerState)
    (realTicks : ℕ) (now : ℤ) : PlayerState × List String × ℕ × Bool :=
  let total := p.tick_buffer + (realTicks : ℚ) * flow
  let ticksToApply := pyInt total
  let step :=
    if ticksToApply ≠ 0 then
      let r := applyTicks g k p ticksToApply.toNat
      (r.1, r.2.1.map (fun note => p.name ++ ": " ++ note), r.2.2)
    else (p, [], k)
  let p2 := { step.1 with tick_buffer := total - (ticksToApply : ℚ) }
  let p3 := { p2 with last_tick_timestamp :=
    p2.last_tick_timestamp + (realTicks : ℤ) * (SECONDS_PER_TICK : ℤ) }
  let p4 := if now < p3.last_tick_timestamp then { p3 with last_tick_timestamp := now } else p3
  (p4, step.2.1, step.2.2, true)

/-- Python `PlayerService.apply_offline_ticks`, restricted to a single player
of the service's map. -/
def applyOfflineTicks (flow : ℚ) (g : ℕ → ℚ) (k : ℕ) (now : ℤ) (p : PlayerState) :
    PlayerState × List String × ℕ × Bool :=
  let elapsed := (now - p.last_tick_timestamp).toNat
  let realTicks := elapsed / SECONDS_PER_TICK
  if realTicks ≠ 0 then p.applyTimeProgression flow g k realTicks now
  else (p, [], k, false)

/-- Python `PlayerService.apply_live_tick`, restricted to a single player:
the real tick count is floored at 1. -/
def applyLiveTick (flow : ℚ) (g : ℕ → ℚ) (k : ℕ) (now : ℤ) (p : PlayerState) :
    PlayerState × List String × ℕ × Bool :=
  let elapsed := (now - p.last_tick_timestamp).toNat
  let realTicks := max (elapsed / SECONDS_PER_TICK) 1
  p.applyTimeProgression flow g k realTicks now

end PlayerState

/-- Persisted form of a `CultivationProgress` record: each field is optional,
a `none` meaning the key is absent from the stored mapping. -/
structure CultivationDict where
  realm : Option String := none
  stage : Option String := none
  layer : Option ℤ := none
  exp : Option ℚ := none
  qi_type : Option String := none
  qi_quality : Option String := none
  cultivation_rate : Option ℚ := none
  foundation_progress : Option ℚ := none
  deriving DecidableEq, Repr

/-- Python `Realm(x)` with the `except ValueError` fallback of `__post_init__`. -/
def parseRealm (x : String) : Realm :=
  if x = "Qi Condensation" then .qiCondensation
  else if x = "Foundation Establishment" then .foundationEstablishment
  else .qiCondensation

/-- Python `Stage(x)` with the `except ValueError` fallback of `__post_init__`. -/
def parseStage (x : String) : Stage :=
  if x = "Initial" then .initial
  else if x = "Early" then .early
  else if x = "Middle" then .middle
  else if x = "Late" then .late
  else if x = "Peak" then .peak
  else .initial

/-- Python `QiType(x)` with the `except ValueError` fallback of `__post_init__`. -/
def parseQiType (x : String) : QiType :=
  if x = "Spiritual Qi" then .spiritual
  else if x = "Yin Qi" then .yin
  else if x = "Yang Qi" then .yang
  else .spiritual

/-- Python `QiQuality(x)` with the `except ValueError` fallback of `__post_init__`. -/
def parseQiQuality (x : String) : QiQuality :=
  if x = "Faint" then .faint
  else if x = "Thin" then .thin
  else if x = "Steady" then .steady
  else if x = "Thick" then .thick
  else if x = "Condensed" then .condensed
  else if x = "Highly Concentrated" then .highlyConcentrated
  else if x = "Superdense" then .superdense
  else if x = "Extremely dense" then .extremelyDense
  else .faint

namespace CultivationProgress

/-- Python `CultivationProgress(**d)` followed by `__post_init__`: enum
parsing with fallbacks, layer clamping to `1..15`, foundation clamping to
`[0,1]`, the layer-driven quality upgrade, and the cultivation-rate refresh
(the stored rate is recomputed, not trusted). -/
def ofDict (d : CultivationDict) : CultivationProgress :=
  let s : CultivationProgress :=
    { realm := parseRealm (d.realm.getD "Qi Condensation")
      stage := parseStage (d.stage.getD "Initial")
      layer := (min (max (d.layer.getD 1) 1) (maxQiLayers : ℤ)).toNat
      exp := d.exp.getD 0
      qi_type := parseQiType (d.qi_type.getD "Spiritual Qi")
      qi_quality := parseQiQuality (d.qi_quality.getD "Faint")
      cultivation_rate := d.cultivation_rate.getD 1
      foundation_progress := min (max (d.foundation_progress.getD 0) 0) 1 }
  (s.upgradeQiQualityForLayer).1.refreshCultivationRate

/-- Python `dataclasses.asdict` restricted to one `CultivationProgress`
(string-enums serialize as their `.value`). -/
def toDict (s : CultivationProgress) : CultivationDict :=
  { realm := some (realmValue s.realm)
    stage := some (stageValue s.stage)
    layer := some (s.layer : ℤ)
    exp := some s.exp
    qi_type := some (qiTypeValue s.qi_type)
    qi_quality := some (qualityValue s.qi_quality)
    cultivation_rate := some s.cultivation_rate
    foundation_progress := some s.foundation_progress }

end CultivationProgress

/-- Persisted form of the `Player` fields the progression engine cares about. -/
structure PlayerDict where
  cultivation : Option CultivationDict := none
  tick_buffer : Option ℚ := none
  last_tick_timestamp : Option ℤ := none
  deriving DecidableEq, Repr

namespace PlayerState

/-- Python `Player.to_dict` restricted to the progression fields. -/
def toDict (p : PlayerState) : PlayerDict :=
  { cultivation := some p.cultivation.toDict
    tick_buffer := some p.tick_buffer
    last_tick_timestamp := some p.last_tick_timestamp }

/-- Python `Player.from_dict` restricted to the progression fields;
`nowTs` stands for `default_timestamp()` used when the timestamp is absent. -/
def ofDict (nowTs : ℤ) (d : PlayerDict) : PlayerState :=
  { cultivation := CultivationProgress.ofDict (d.cultivation.getD {})
    tick_buffer := d.tick_buffer.getD 0
    last_tick_timestamp := d.last_tick_timestamp.getD nowTs }

end PlayerState

/-- Iterates `add_exp` over a list of tick counts, threading the draw
counter, as the periodic tick loop does across successive sweeps. -/
def addExpSeq (g : ℕ → ℚ) (p : CultivationProgress × ℕ) :
    List ℕ → CultivationProgress × ℕ
  | [] => p
  | t :: ts =>
    addExpSeq g
      ((CultivationProgress.addExp g p.2 p.1 t).1,
        (CultivationProgress.addExp g p.2 p.1 t).2.2) ts

/-- Sample plateau state (half-filled foundation bar) used to witness the
claim theorems on concrete inputs. -/
def plateauHalf : CultivationProgress :=
  { stage := .peak, layer := 15, foundation_progress := 1/2 }

/-- Sample plateau state whose exp sits close under the 7500 threshold. -/
def plateauNearCap : CultivationProgress :=
  { stage := .peak, layer := 15, exp := 7000, qi_quality := .thin,
    cultivation_rate := 2 }

/-- Sample player whose timestamp already equals the current time. -/
def livePlayer : PlayerState := { last_tick_timestamp := 1000 }

/-- Sample player carrying a fractional tick buffer of 0.7. -/
def bufferPlayer : PlayerState := { tick_buffer := 7/10 }

/-- Sample state one threshold away from the layer-6 quality upgrade. -/
def layer5Peak : CultivationProgress := { stage := .peak, layer := 5 }

/-- Sample state whose quality is inconsistent with its layer: layer 7 with
Faint quality (each field individually in its valid range). -/
def layer7Faint : CultivationProgress := { layer := 7 }

/-- Sample plateau state with a full foundation bar. -/
def plateauFull : CultivationProgress :=
  { stage := .peak, layer := 15, foundation_progress := 1 }

/-! ### Helper lemmas -/

namespace CultivationProgress

lemma isMaxedOut_iff (s : CultivationProgress) :
    s.isMaxedOut = true ↔ s.realm = Realm.foundationEstablishment ∧ s.stage = Stage.peak := by
  simp [isMaxedOut]

lemma isQiCondensationCap_iff (s : CultivationProgress) :
    s.isQiCondensationCap = true ↔
      s.realm = Realm.qiCondensation ∧ maxQiLayers ≤ s.layer ∧ s.stage = Stage.peak := by
  simp [isQiCondensationCap]

lemma requiredExpNat_pos (s : CultivationProgress) : 100 ≤ s.requiredExpNat := by
  have h1 : 1 ≤ realmIndex s.realm + 1 := Nat.succ_le_succ (Nat.zero_le _)
  have h2 : 1 ≤ max s.layer 1 := le_max_right _ _
  have h3 : 1 ≤ stageIndex s.stage + 1 := Nat.succ_le_succ (Nat.zero_le _)
  calc 100 = 1 * 100 * 1 * 1 := by norm_num
    _ ≤ (realmIndex s.realm + 1) * 100 * max s.layer 1 * (stageIndex s.stage + 1) :=
      Nat.mul_le_mul (Nat.mul_le_mul (Nat.mul_le_mul h1 le_rfl) h2) h3

lemma hundred_le_requiredExp (s : CultivationProgress) : (100 : ℚ) ≤ s.requiredExp := by
  have := s.requiredExpNat_pos
  unfold requiredExp
  exact_mod_cast this

lemma requiredExp_pos (s : CultivationProgress) : (0 : ℚ) < s.requiredExp :=
  lt_of_lt_of_le (by norm_num) s.hundred_le_requiredExp

lemma requiredExp_exp_update (s : CultivationProgress) (e : ℚ) :
    requiredExp { s with exp := e } = s.requiredExp := rfl

/-- The foundation update changes only `foundation_progress`. -/
lemma updateFoundationProgress_frame (s : CultivationProgress) (t : ℕ) :
    (s.updateFoundationProgress t).1 =
      { s with foundation_progress := (s.updateFoundationProgress t).1.foundation_progress } := by
  unfold updateFoundationProgress
  dsimp only
  split_ifs <;> rfl

lemma updateFoundationProgress_realm (s : CultivationProgress) (t : ℕ) :
    (s.updateFoundationProgress t).1.realm = s.realm := by
  rw [updateFoundationProgress_frame]

lemma updateFoundationProgress_stage (s : CultivationProgress) (t : ℕ) :
    (s.updateFoundationProgress t).1.stage = s.stage := by
  rw [updateFoundationProgress_frame]

lemma updateFoundationProgress_layer (s : CultivationProgress) (t : ℕ) :
    (s.updateFoundationProgress t).1.layer = s.layer := by
  rw [updateFoundationProgress_frame]

lemma updateFoundationProgress_exp (s : CultivationProgress) (t : ℕ) :
    (s.updateFoundationProgress t).1.exp = s.exp := by
  rw [updateFoundationProgress_frame]

lemma updateFoundationProgress_quality (s : CultivationProgress) (t : ℕ) :
    (s.updateFoundationProgress t).1.qi_quality = s.qi_quality := by
  rw [updateFoundationProgress_frame]

lemma updateFoundationProgress_requiredExp (s : CultivationProgress) (t : ℕ) :
    (s.updateFoundationProgress t).1.requiredExp = s.requiredExp := by
  rw [updateFoundationProgress_frame]; rfl

lemma updateFoundationProgress_cap (s : CultivationProgress) (t : ℕ) :
    (s.updateFoundationProgress t).1.isQiCondensationCap = s.isQiCondensationCap := by
  rw [updateFoundationProgress_frame]; rfl

lemma updateFoundationProgress_maxed (s : CultivationProgress) (t : ℕ) :
    (s.updateFoundationProgress t).1.isMaxedOut = s.isMaxedOut := by
  rw [updateFoundationProgress_frame]; rfl

/-- Within `advance_stage` the exp, the realm and the draw counter never
change and the quality never drops.  (In particular the tribulation branch of
`breakthrough_realm`, the only consumer of `random()`, is unreachable from
stage advancement: with the two-realm table the realm is `Qi Condensation`
there, and those states are caught by the layer/cap branches first.) -/
lemma advanceStage_spec (g : ℕ → ℚ) (k : ℕ) (s : CultivationProgress) :
    (advanceStage g k s).1.exp = s.exp ∧
    (advanceStage g k s).1.realm = s.realm ∧
    (advanceStage g k s).2.2 = k ∧
    qualityRank s.qi_quality ≤ qualityRank (advanceStage g k s).1.qi_quality := by
  obtain ⟨r, st, l, e, qt, qq, cr, fp⟩ := s
  cases st <;> cases r <;>
    simp only [advanceStage, breakthroughRealm, handleLayerAdvance,
      upgradeQiQualityForLayer, refreshCultivationRate, tribulationResolve,
      stageIndex, stageOfIndex, realmIndex, realmCount, isQiCondensationCap,
      maxQiLayers, isLowerThan, qualityRank] <;>
    split_ifs <;> simp_all

lemma advanceStage_exp (g : ℕ → ℚ) (k : ℕ) (s : CultivationProgress) :
    (advanceStage g k s).1.exp = s.exp := (advanceStage_spec g k s).1

lemma advanceStage_realm (g : ℕ → ℚ) (k : ℕ) (s : CultivationProgress) :
    (advanceStage g k s).1.realm = s.realm := (advanceStage_spec g k s).2.1

lemma advanceStage_counter (g : ℕ → ℚ) (k : ℕ) (s : CultivationProgress) :
    (advanceStage g k s).2.2 = k := (advanceStage_spec g k s).2.2.1

lemma advanceStage_quality (g : ℕ → ℚ) (k : ℕ) (s : CultivationProgress) :
    qualityRank s.qi_quality ≤ qualityRank (advanceStage g k s).1.qi_quality :=
  (advanceStage_spec g k s).2.2.2

lemma addExpLoop_of_lt (g : ℕ → ℚ) (fuel k : ℕ) (s : CultivationProgress)
    (h : s.exp < s.requiredExp) : addExpLoop g fuel k s = (s, [], k) := by
  cases fuel with
  | zero => rfl
  | succ n => rw [addExpLoop, if_neg (not_le.mpr h)]

lemma addExpLoop_succ (g : ℕ → ℚ) (fuel k : ℕ) (s : CultivationProgress)
    (h : s.requiredExp ≤ s.exp) :
    addExpLoop g (fuel + 1) k s =
      (let s1 : CultivationProgress := { s with exp := s.exp - s.requiredExp }
       let r := advanceStage g k s1
       if r.1.isQiCondensationCap then
         ({ r.1 with exp := min r.1.exp r.1.requiredExp }, [r.2.1], r.2.2)
       else if r.1.isMaxedOut then
         ({ r.1 with exp := min r.1.exp r.1.requiredExp }, [r.2.1], r.2.2)
       else
         let t := addExpLoop g fuel r.2.2 r.1
         (t.1, r.2.1 :: t.2.1, t.2.2)) := by
  rw [addExpLoop, if_pos h]

lemma addExpLoop_exp_nonneg (g : ℕ → ℚ) :
    ∀ (fuel k : ℕ) (s : CultivationProgress), 0 ≤ s.exp →
      0 ≤ (addExpLoop g fuel k s).1.exp := by
  intro fuel
  induction fuel with
  | zero => intro k s h; exact h
  | succ n ih =>
    intro k s h
    by_cases hg : s.requiredExp ≤ s.exp
    · rw [addExpLoop_succ g n k s hg]
      dsimp only
      have h1 : (0 : ℚ) ≤ s.exp - s.requiredExp := sub_nonneg.mpr hg
      have h2 : 0 ≤ (advanceStage g k { s with exp := s.exp - s.requiredExp }).1.exp := by
        rw [advanceStage_exp]; exact h1
      split_ifs
      · exact le_min h2 (le_of_lt (requiredExp_pos _))
      · exact le_min h2 (le_of_lt (requiredExp_pos _))
      · exact ih _ _ h2
    · rw [addExpLoop_of_lt g _ k s (not_le.mp hg)]; exact h

lemma addExpLoop_post (g : ℕ → ℚ) :
    ∀ (fuel k : ℕ) (s : CultivationProgress), s.exp ≤ 100 * (fuel : ℚ) →
      ((addExpLoop g fuel k s).1.exp < (addExpLoop g fuel k s).1.requiredExp ∨
        (((addExpLoop g fuel k s).1.isQiCondensationCap = true ∨
            (addExpLoop g fuel k s).1.isMaxedOut = true) ∧
          (addExpLoop g fuel k s).1.exp ≤ (addExpLoop g fuel k s).1.requiredExp)) := by
  intro fuel
  induction fuel with
  | zero =>
    intro k s h
    left
    have h0 : s.exp ≤ 0 := by simpa using h
    calc (addExpLoop g 0 k s).1.exp = s.exp := rfl
      _ < (addExpLoop g 0 k s).1.requiredExp :=
        lt_of_le_of_lt h0 (requiredExp_pos _)
  | succ n ih =>
    intro k s h
    by_cases hg : s.requiredExp ≤ s.exp
    · rw [addExpLoop_succ g n k s hg]
      dsimp only
      split_ifs with hc hm
      · exact Or.inr ⟨Or.inl hc, min_le_right _ _⟩
      · exact Or.inr ⟨Or.inr hm, min_le_right _ _⟩
      · refine ih _ _ ?_
        rw [advanceStage_exp]
        have h100 : (100 : ℚ) ≤ s.requiredExp := s.hundred_le_requiredExp
        push_cast at h ⊢
        linarith
    · rw [addExpLoop_of_lt g _ k s (not_le.mp hg)]
      exact Or.inl (not_le.mp hg)

lemma addExpLoop_realm (g : ℕ → ℚ) :
    ∀ (fuel k : ℕ) (s : CultivationProgress),
      (addExpLoop g fuel k s).1.realm = s.realm := by
  intro fuel
  induction fuel with
  | zero => intro k s; rfl
  | succ n ih =>
    intro k s
    by_cases hg : s.requiredExp ≤ s.exp
    · rw [addExpLoop_succ g n k s hg]
      dsimp only
      split_ifs
      · exact advanceStage_realm g k _
      · exact advanceStage_realm g k _
      · rw [ih]; exact advanceStage_realm g k _
    · rw [addExpLoop_of_lt g _ k s (not_le.mp hg)]

lemma addExpLoop_counter (g : ℕ → ℚ) :
    ∀ (fuel k : ℕ) (s : CultivationProgress),
      (addExpLoop g fuel k s).2.2 = k := by
  intro fuel
  induction fuel with
  | zero => intro k s; rfl
  | succ n ih =>
    intro k s
    by_cases hg : s.requiredExp ≤ s.exp
    · rw [addExpLoop_succ g n k s hg]
      dsimp only
      split_ifs
      · exact advanceStage_counter g k _
      · exact advanceStage_counter g k _
      · rw [ih]; exact advanceStage_counter g k _
    · rw [addExpLoop_of_lt g _ k s (not_le.mp hg)]

lemma addExpLoop_quality (g : ℕ → ℚ) :
    ∀ (fuel k : ℕ) (s : CultivationProgress),
      qualityRank s.qi_quality ≤ qualityRank (addExpLoop g fuel k s).1.qi_quality := by
  intro fuel
  induction fuel with
  | zero => intro k s; exact le_rfl
  | succ n ih =>
    intro k s
    by_cases hg : s.requiredExp ≤ s.exp
    · rw [addExpLoop_succ g n k s hg]
      dsimp only
      split_ifs
      · exact advanceStage_quality g k { s with exp := s.exp - s.requiredExp }
      · exact advanceStage_quality g k { s with exp := s.exp - s.requiredExp }
      · exact le_trans
          (advanceStage_quality g k { s with exp := s.exp - s.requiredExp }) (ih _ _)
    · rw [addExpLoop_of_lt g _ k s (not_le.mp hg)]

/-- The fuel argument of `addExpLoop` is only a termination device: any two
fuels dominating the exp (each iteration burns at least 100 exp) give the same
result, so the loop is the faithful image of the unbounded `while`. -/
lemma addExpLoop_fuel_eq (g : ℕ → ℚ) :
    ∀ (f1 f2 k : ℕ) (s : CultivationProgress),
      s.exp ≤ 100 * (f1 : ℚ) → s.exp ≤ 100 * (f2 : ℚ) →
        addExpLoop g f1 k s = addExpLoop g f2 k s := by
  intro f1
  induction f1 with
  | zero =>
    intro f2 k s h1 h2
    have hlt : s.exp < s.requiredExp := by
      have h0 : s.exp ≤ 0 := by simpa using h1
      exact lt_of_le_of_lt h0 (requiredExp_pos _)
    rw [addExpLoop_of_lt g _ k s hlt, addExpLoop_of_lt g _ k s hlt]
  | succ n ih =>
    intro f2 k s h1 h2
    by_cases hg : s.requiredExp ≤ s.exp
    · cases f2 with
      | zero =>
        exfalso
        have h0 : s.exp ≤ 0 := by simpa using h2
        have := s.hundred_le_requiredExp
        linarith
      | succ m =>
        rw [addExpLoop_succ g n k s hg, addExpLoop_succ g m k s hg]
        dsimp only
        have h100 : (100 : ℚ) ≤ s.requiredExp := s.hundred_le_requiredExp
        have hexp : (advanceStage g k { s with exp := s.exp - s.requiredExp }).1.exp =
            s.exp - s.requiredExp := advanceStage_exp g k _
        split_ifs
        · rfl
        · rfl
        · have heq := ih m
            ((advanceStage g k { s with exp := s.exp - s.requiredExp }).2.2)
            ((advanceStage g k { s with exp := s.exp - s.requiredExp }).1)
            (by rw [hexp]; push_cast at h1 ⊢; linarith)
            (by rw [hexp]; push_cast at h2 ⊢; linarith)
          rw [heq]
    · rw [addExpLoop_of_lt g _ k s (not_le.mp hg),
        addExpLoop_of_lt g _ k s (not_le.mp hg)]

lemma addExp_realm (g : ℕ → ℚ) (k : ℕ) (s : CultivationProgress) (T : ℕ) :
    (addExp g k s T).1.realm = s.realm := by
  unfold addExp
  dsimp only
  split_ifs
  · exact updateFoundationProgress_realm _ _
  · rw [updateFoundationProgress_realm, addExpLoop_realm]

lemma addExp_counter (g : ℕ → ℚ) (k : ℕ) (s : CultivationProgress) (T : ℕ) :
    (addExp g k s T).2.2 = k := by
  unfold addExp
  dsimp only
  split_ifs
  · rfl
  · exact addExpLoop_counter g _ k _

lemma addExp_quality (g : ℕ → ℚ) (k : ℕ) (s : CultivationProgress) (T : ℕ) :
    qualityRank s.qi_quality ≤ qualityRank (addExp g k s T).1.qi_quality := by
  unfold addExp
  dsimp only
  split_ifs
  · rw [updateFoundationProgress_quality]
  · rw [updateFoundationProgress_quality]
    exact addExpLoop_quality g _ k { s with exp := s.exp + s.cultivation_rate * (T : ℚ) }

lemma exp_le_loopFuel (s : CultivationProgress) :
    s.exp ≤ 100 * ((s.loopFuel : ℕ) : ℚ) := by
  unfold loopFuel
  have h1 : s.exp ≤ (⌈s.exp⌉ : ℚ) := Int.le_ceil _
  have h2 : (⌈s.exp⌉ : ℚ) ≤ ((⌈s.exp⌉.toNat : ℤ) : ℚ) := by
    exact_mod_cast Int.self_le_toNat _
  have h3 : (0 : ℚ) ≤ ((⌈s.exp⌉.toNat : ℤ) : ℚ) := by positivity
  push_cast at h2 h3 ⊢
  linarith

/-- Exp stays non-negative, is strictly below the threshold outside cap
states, and is clamped at the threshold in cap states. -/
lemma addExp_exp_bounds (g : ℕ → ℚ) (k : ℕ) (s : CultivationProgress) (T : ℕ)
    (he : 0 ≤ s.exp) (hr : 0 ≤ s.cultivation_rate) :
    0 ≤ (addExp g k s T).1.exp ∧
      ((addExp g k s T).1.isQiCondensationCap = false ∧
          (addExp g k s T).1.isMaxedOut = false →
        (addExp g k s T).1.exp < (addExp g k s T).1.requiredExp) ∧
      ((addExp g k s T).1.isQiCondensationCap = true ∨
          (addExp g k s T).1.isMaxedOut = true →
        (addExp g k s T).1.exp ≤ (addExp g k s T).1.requiredExp) := by
  have he1 : 0 ≤ s.exp + s.cultivation_rate * (T : ℚ) :=
    add_nonneg he (mul_nonneg hr (by positivity))
  unfold addExp
  dsimp only
  split_ifs with hm
  · constructor
    · rw [updateFoundationProgress_exp]
      exact le_min he1 (le_of_lt (requiredExp_pos _))
    constructor
    · intro hnot
      exfalso
      rw [updateFoundationProgress_maxed] at hnot
      simp only [isMaxedOut, maxQiLayers] at hm hnot
      rw [hnot.2] at hm
      exact absurd hm (by simp)
    · intro _
      rw [updateFoundationProgress_exp, updateFoundationProgress_requiredExp]
      exact min_le_right _ _
  · have hpost := addExpLoop_post g
      ({ s with exp := s.exp + s.cultivation_rate * (T : ℚ) }).loopFuel k
      { s with exp := s.exp + s.cultivation_rate * (T : ℚ) }
      (exp_le_loopFuel _)
    constructor
    · rw [updateFoundationProgress_exp]
      exact addExpLoop_exp_nonneg g _ k _ he1
    constructor
    · intro hnot
      rw [updateFoundationProgress_cap, updateFoundationProgress_maxed] at hnot
      rw [updateFoundationProgress_exp, updateFoundationProgress_requiredExp]
      rcases hpost with h | h
      · exact h
      · rcases h.1 with hc | hc
        · rw [hnot.1] at hc; exact absurd hc (by simp)
        · rw [hnot.2] at hc; exact absurd hc (by simp)
    · intro _
      rw [updateFoundationProgress_exp, updateFoundationProgress_requiredExp]
      rcases hpost with h | h
      · exact le_of_lt h
      · exact h.2

/-- Closed form of the foundation update while the bar is active. -/
lemma updateFoundationProgress_active (s : CultivationProgress) (t : ℕ)
    (hact : s.foundationBarActive = true) :
    s.updateFoundationProgress t =
      ({ s with foundation_progress :=
          if 1 ≤ s.foundation_progress then s.foundation_progress
          else min 1 (s.foundation_progress + (t : ℚ) / (FOUNDATION_FILL_TICKS : ℚ)) },
       if s.foundation_progress < 1 ∧
           1 ≤ s.foundation_progress + (t : ℚ) / (FOUNDATION_FILL_TICKS : ℚ) then
         ["Foundation bar complete—breakthrough chance has reached 100%."]
       else []) := by
  unfold updateFoundationProgress
  simp only [hact, not_true, if_false, Bool.true_eq_false]
  dsimp only
  by_cases h1 : 1 ≤ s.foundation_progress
  · rw [if_pos h1, if_pos h1, if_neg (by intro hc; linarith [hc.1])]
  · rw [if_neg h1, if_neg h1]
    have hmin : (1 : ℚ) ≤ min 1 (s.foundation_progress + (t : ℚ) / (FOUNDATION_FILL_TICKS : ℚ))
        ↔ 1 ≤ s.foundation_progress + (t : ℚ) / (FOUNDATION_FILL_TICKS : ℚ) := by
      rw [le_min_iff]
      simp
    by_cases h2 : s.foundation_progress < 1 ∧
        1 ≤ s.foundation_progress + (t : ℚ) / (FOUNDATION_FILL_TICKS : ℚ)
    · rw [if_pos, if_pos h2]
      exact ⟨h2.1, hmin.mpr h2.2⟩
    · rw [if_neg, if_neg h2]
      intro hc
      exact h2 ⟨hc.1, hmin.mp hc.2⟩

/-- Behaviour of `add_exp` at the first-realm plateau: the exp sum is kept if
below the threshold, otherwise the threshold is subtracted once, the
"Foundation bar awakened" stage note is appended and the remainder is clamped
at the threshold; the foundation bar then advances with its one-time
completion note, and no random draw is consumed. -/
lemma addExp_plateau (g : ℕ → ℚ) (k T : ℕ) (s : CultivationProgress)
    (hre : s.realm = Realm.qiCondensation) (hst : s.stage = Stage.peak)
    (hl : maxQiLayers ≤ s.layer) (hfp : 0 ≤ s.foundation_progress) :
    addExp g k s T =
      ({ s with
          exp :=
            if s.exp + s.cultivation_rate * (T : ℚ) < s.requiredExp then
              s.exp + s.cultivation_rate * (T : ℚ)
            else min (s.exp + s.cultivation_rate * (T : ℚ) - s.requiredExp) s.requiredExp,
          foundation_progress :=
            if 1 ≤ s.foundation_progress then s.foundation_progress
            else min 1 (s.foundation_progress + (T : ℚ) / (FOUNDATION_FILL_TICKS : ℚ)) },
       (if s.exp + s.cultivation_rate * (T : ℚ) < s.requiredExp then []
        else ["Reached " ++ s.stageLabel ++ " of " ++ realmValue s.realm ++
          ". Foundation bar awakened."]) ++
         (if s.foundation_progress < 1 ∧
             1 ≤ s.foundation_progress + (T : ℚ) / (FOUNDATION_FILL_TICKS : ℚ) then
           ["Foundation bar complete—breakthrough chance has reached 100%."]
         else []),
       k) := by
  have hmax : s.isMaxedOut = false := by
    simp [isMaxedOut, hre]
  have hcap1 : ({ s with exp := s.exp + s.cultivation_rate * (T : ℚ) }
      : CultivationProgress).foundationBarActive = true := by
    simp [foundationBarActive, isQiCondensationCap, hre, hst, hl]
  unfold addExp
  simp only [hmax, Bool.false_eq_true, if_false]
  by_cases hcase : s.exp + s.cultivation_rate * (T : ℚ) < s.requiredExp
  · rw [addExpLoop_of_lt g _ k _ hcase]
    dsimp only
    rw [updateFoundationProgress_active _ _ hcap1]
    simp [hcase]
  · unfold loopFuel
    rw [addExpLoop_succ g _ k _ (not_lt.mp hcase)]
    dsimp only
    simp only [requiredExp_exp_update]
    have hadv : advanceStage g k
        ({ s with exp := s.exp + s.cultivation_rate * (T : ℚ) - s.requiredExp }
          : CultivationProgress) =
        ({ s with
            exp := s.exp + s.cultivation_rate * (T : ℚ) - s.requiredExp,
            foundation_progress := max s.foundation_progress 0 },
         "Reached " ++ s.stageLabel ++ " of " ++ realmValue s.realm ++
           ". Foundation bar awakened.", k) := by
      unfold advanceStage
      rw [if_neg (by simp [hst, stageIndex]),
        if_neg (by intro hc; exact absurd hc.2 (not_lt.mpr hl)),
        if_pos (by simp [isQiCondensationCap, hre, hst, hl])]
      rfl
    rw [hadv]
    dsimp only
    rw [if_pos (by simp [isQiCondensationCap, hre, hst, hl])]
    dsimp only
    rw [updateFoundationProgress_active _ _
      (by simp [foundationBarActive, isQiCondensationCap, hre, hst, hl])]
    rw [max_eq_left hfp]
    simp [hcase, requiredExp_exp_update]

/-- Closed form of `stage_label` at (Qi Condensation, Initial, layer 6). -/
lemma stageLabel_qi6 (s : CultivationProgress)
    (h1 : s.realm = Realm.qiCondensation) (h2 : s.stage = Stage.initial)
    (h3 : s.layer = 6) : s.stageLabel = "Initial 6th layer" := by
  unfold stageLabel layerOrdinal
  rw [h1, h2, h3]
  norm_num [stageValue]
  rfl

lemma attemptFoundationBreakthrough_quality (g : ℕ → ℚ) (k : ℕ)
    (s : CultivationProgress) :
    (attemptFoundationBreakthrough g k s).1.qi_quality = s.qi_quality := by
  unfold attemptFoundationBreakthrough
  dsimp only
  split_ifs <;> rfl

lemma breakthroughRealm_quality (g : ℕ → ℚ) (k : ℕ) (s : CultivationProgress) :
    (breakthroughRealm g k s).1.qi_quality = s.qi_quality := by
  unfold breakthroughRealm
  dsimp only
  split_ifs <;> rfl

end CultivationProgress

lemma addExpSeq_quality (g : ℕ → ℚ) :
    ∀ (ts : List ℕ) (p : CultivationProgress × ℕ),
      qualityRank p.1.qi_quality ≤ qualityRank (addExpSeq g p ts).1.qi_quality := by
  intro ts
  induction ts with
  | nil => intro p; exact le_rfl
  | cons t ts ih =>
    intro p
    exact le_trans (CultivationProgress.addExp_quality g p.2 p.1 t)
      (ih ((CultivationProgress.addExp g p.2 p.1 t).1,
        (CultivationProgress.addExp g p.2 p.1 t).2.2))

namespace PlayerState

lemma applyTicks_last (g : ℕ → ℚ) (k : ℕ) (p : PlayerState) (t : ℕ) :
    (applyTicks g k p t).1.last_tick_timestamp = p.last_tick_timestamp := rfl

lemma applyTicks_buffer (g : ℕ → ℚ) (k : ℕ) (p : PlayerState) (t : ℕ) :
    (applyTicks g k p t).1.tick_buffer = p.tick_buffer := rfl

lemma applyTicks_cultivation (g : ℕ → ℚ) (k : ℕ) (p : PlayerState) (t : ℕ) :
    (applyTicks g k p t).1.cultivation =
      (CultivationProgress.addExp g k p.cultivation t).1 := rfl

lemma stepTuple_last (g : ℕ → ℚ) (k : ℕ) (p : PlayerState) (t : ℤ)
    (X : List String) (K : ℕ) :
    ((if t ≠ 0 then ((applyTicks g k p t.toNat).1, X, K)
        else (p, ([] : List String), k)) :
      PlayerState × List String × ℕ).1.last_tick_timestamp =
      p.last_tick_timestamp := by
  split_ifs <;> rfl

lemma applyTimeProgression_last (flow : ℚ) (g : ℕ → ℚ) (k : ℕ) (p : PlayerState)
    (realTicks : ℕ) (now : ℤ) :
    (applyTimeProgression flow g k p realTicks now).1.last_tick_timestamp =
      if now < p.last_tick_timestamp + (realTicks : ℤ) * (SECONDS_PER_TICK : ℤ) then now
      else p.last_tick_timestamp + (realTicks : ℤ) * (SECONDS_PER_TICK : ℤ) := by
  unfold applyTimeProgression
  dsimp only
  rw [stepTuple_last]
  split_ifs <;> rfl

lemma applyTimeProgression_buffer (flow : ℚ) (g : ℕ → ℚ) (k : ℕ) (p : PlayerState)
    (realTicks : ℕ) (now : ℤ) :
    (applyTimeProgression flow g k p realTicks now).1.tick_buffer =
      p.tick_buffer + (realTicks : ℚ) * flow -
        (pyInt (p.tick_buffer + (realTicks : ℚ) * flow) : ℚ) := by
  unfold applyTimeProgression
  dsimp only
  split_ifs <;> rfl

lemma applyTimeProgression_cultivation (flow : ℚ) (g : ℕ → ℚ) (k : ℕ)
    (p : PlayerState) (realTicks : ℕ) (now : ℤ) :
    (applyTimeProgression flow g k p realTicks now).1.cultivation =
      (if pyInt (p.tick_buffer + (realTicks : ℚ) * flow) ≠ 0 then
        (CultivationProgress.addExp g k p.cultivation
          (pyInt (p.tick_buffer + (realTicks : ℚ) * flow)).toNat).1
      else p.cultivation) := by
  unfold applyTimeProgression
  dsimp only
  split_ifs <;> rfl

end PlayerState

namespace CultivationProgress

lemma parseRealm_value (r : Realm) : parseRealm (realmValue r) = r := by
  cases r <;> rfl

lemma parseStage_value (st : Stage) : parseStage (stageValue st) = st := by
  cases st <;> rfl

lemma parseQiType_value (t : QiType) : parseQiType (qiTypeValue t) = t := by
  cases t <;> rfl

lemma parseQiQuality_value (q : QiQuality) : parseQiQuality (qualityValue q) = q := by
  cases q <;> rfl

/-- Persisting and re-loading a `CultivationProgress` restores it exactly
when the stored rate matches the quality and the quality is not below the
layer-6 upgrade threshold. -/
lemma ofDict_toDict (s : CultivationProgress)
    (hrate : s.cultivation_rate = s.qiGatheringRate)
    (hl1 : 1 ≤ s.layer) (hl2 : s.layer ≤ maxQiLayers)
    (hf1 : 0 ≤ s.foundation_progress) (hf2 : s.foundation_progress ≤ 1)
    (hq : 6 ≤ s.layer → isLowerThan s.qi_quality .thin = false) :
    CultivationProgress.ofDict s.toDict = s := by
  unfold CultivationProgress.ofDict CultivationProgress.toDict
  simp only [Option.getD_some]
  rw [parseRealm_value, parseStage_value, parseQiType_value, parseQiQuality_value]
  have hlay : (min (max ((s.layer : ℤ)) 1) ((maxQiLayers : ℕ) : ℤ)).toNat = s.layer := by
    simp only [maxQiLayers] at hl2 ⊢
    omega
  have hfp : min (max s.foundation_progress 0) 1 = s.foundation_progress := by
    rw [max_eq_left hf1, min_eq_left hf2]
  rw [hlay, hfp]
  unfold upgradeQiQualityForLayer refreshCultivationRate
  unfold qiGatheringRate at hrate
  by_cases h6 : 6 ≤ s.layer
  · rw [if_neg (by
      intro hc
      rw [hq h6] at hc
      exact absurd hc.2 (by simp))]
    dsimp only [qiGatheringRate]
    rw [← hrate]
  · rw [if_neg (fun hc => h6 hc.1)]
    dsimp only [qiGatheringRate]
    rw [← hrate]

/-- A dict with every key absent loads as the default dataclass values. -/
lemma ofDict_empty : CultivationProgress.ofDict {} = ({} : CultivationProgress) := by
  unfold CultivationProgress.ofDict
  norm_num [parseRealm, parseStage, parseQiType, parseQiQuality,
    upgradeQiQualityForLayer, refreshCultivationRate, qiGatheringRate, qiPerDay,
    gatheringModifier, isLowerThan, qualityRank, maxQiLayers,
    CultivationProgress.mk.injEq]

end CultivationProgress

/-! ### Claim theorems -/

open CultivationProgress

/-- C2: whenever a next realm exists in `REALM_ORDER`, `breakthrough_realm`
ends with that next realm and stage Initial no matter what the tribulation's
random draw reports; two runs from the same state with different draw oracles
produce identical post-states (only the message depends on the draw). -/
theorem C2_breakthrough_state_independent_of_draw
    (g1 g2 : ℕ → ℚ) (k1 k2 : ℕ) (s : CultivationProgress)
    (h : realmIndex s.realm + 1 < realmCount) :
    (breakthroughRealm g1 k1 s).1 = (breakthroughRealm g2 k2 s).1 ∧
      (breakthroughRealm g1 k1 s).1.realm = Realm.foundationEstablishment ∧
      (breakthroughRealm g1 k1 s).1.stage = Stage.initial := by
  unfold breakthroughRealm
  rw [if_pos h, if_pos h]
  exact ⟨rfl, rfl, rfl⟩

theorem C2_witness :
    realmIndex ({} : CultivationProgress).realm + 1 < realmCount ∧
      ((breakthroughRealm (fun _ => 0) 0 ({} : CultivationProgress)).1 =
          (breakthroughRealm (fun _ => 1/2) 7 ({} : CultivationProgress)).1 ∧
        (breakthroughRealm (fun _ => 0) 0 ({} : CultivationProgress)).1.realm =
          Realm.foundationEstablishment ∧
        (breakthroughRealm (fun _ => 0) 0 ({} : CultivationProgress)).1.stage =
          Stage.initial) :=
  ⟨by decide,
    C2_breakthrough_state_independent_of_draw (fun _ => 0) (fun _ => 1/2) 0 7 {} (by decide)⟩

/-- C3: `attempt_foundation_breakthrough` fails with an unchanged state when
the foundation bar is inactive; otherwise the chance is
`min(0.10 + 0.90 × foundation_progress, 1.0)`, a draw ≤ chance yields the
next realm at Initial/layer 1 with exp and foundation reset, and a draw >
chance keeps the first realm at Late/max layer with exp and foundation
reset. -/
theorem C3_attempt_foundation_breakthrough_spec
    (g : ℕ → ℚ) (k : ℕ) (s : CultivationProgress) :
    (s.foundationBarActive = false →
      attemptFoundationBreakthrough g k s =
        (s, false, "You are not ready to break through yet.", k)) ∧
    (s.foundationBarActive = true → 0 ≤ s.foundation_progress →
      s.realm = Realm.qiCondensation ∧
      s.breakthroughChance = min (1/10 + 9/10 * s.foundation_progress) 1 ∧
      (g k ≤ s.breakthroughChance →
        attemptFoundationBreakthrough g k s =
          ({ s with
              realm := .foundationEstablishment, stage := .initial, layer := 1,
              exp := 0, foundation_progress := 0 }, true,
            "Breakthrough successful! You have reached Foundation Establishment.",
            k + 1)) ∧
      (s.breakthroughChance < g k →
        attemptFoundationBreakthrough g k s =
          ({ s with
              stage := .late, layer := maxQiLayers, exp := 0,
              foundation_progress := 0 }, false,
            "Breakthrough failed. Your foundation wavers; you return to Late 15th layer Qi Condensation.",
            k + 1))) := by
  constructor
  · intro h
    unfold attemptFoundationBreakthrough
    rw [if_pos (by simp [h])]
  · intro ha hfp
    have hrealm : s.realm = Realm.qiCondensation := by
      simp only [foundationBarActive, isQiCondensationCap,
        decide_eq_true_eq, Bool.and_eq_true] at ha
      exact ha.1
    refine ⟨hrealm, ?_, ?_, ?_⟩
    · unfold breakthroughChance
      rw [if_neg (by simp [ha])]
      refine max_eq_right (le_min (by linarith) (by norm_num))
    · intro hd
      unfold attemptFoundationBreakthrough
      rw [if_neg (by simp [ha]), if_pos hd]
    · intro hd
      unfold attemptFoundationBreakthrough
      rw [if_neg (by simp [ha]), if_neg (not_le.mpr hd)]

theorem C3_witness :
    plateauHalf.foundationBarActive = true ∧
      (0 : ℚ) ≤ plateauHalf.foundation_progress ∧
      (plateauHalf.realm = Realm.qiCondensation ∧
        plateauHalf.breakthroughChance =
          min (1/10 + 9/10 * plateauHalf.foundation_progress) 1 ∧
        ((fun _ => (0 : ℚ)) 0 ≤ plateauHalf.breakthroughChance →
          attemptFoundationBreakthrough (fun _ => 0) 0 plateauHalf =
            ({ plateauHalf with
                realm := .foundationEstablishment, stage := .initial, layer := 1,
                exp := 0, foundation_progress := 0 }, true,
              "Breakthrough successful! You have reached Foundation Establishment.",
              0 + 1)) ∧
        (plateauHalf.breakthroughChance < (fun _ => (0 : ℚ)) 0 →
          attemptFoundationBreakthrough (fun _ => 0) 0 plateauHalf =
            ({ plateauHalf with
                stage := .late, layer := maxQiLayers, exp := 0,
                foundation_progress := 0 }, false,
              "Breakthrough failed. Your foundation wavers; you return to Late 15th layer Qi Condensation.",
              0 + 1))) :=
  ⟨by decide, by norm_num [plateauHalf],
    (C3_attempt_foundation_breakthrough_spec (fun _ => 0) 0 plateauHalf).2
      (by decide) (by norm_num [plateauHalf])⟩

/-- C5: for every state with non-negative exp and rate and every tick count,
`add_exp` leaves exp non-negative; outside cap states the exp ends strictly
below the threshold, and in cap states it is clamped to at most the
threshold. -/
theorem C5_exp_invariants (g : ℕ → ℚ) (k : ℕ) (s : CultivationProgress) (T : ℕ)
    (he : 0 ≤ s.exp) (hr : 0 ≤ s.cultivation_rate) :
    0 ≤ (addExp g k s T).1.exp ∧
      ((addExp g k s T).1.isQiCondensationCap = false ∧
          (addExp g k s T).1.isMaxedOut = false →
        (addExp g k s T).1.exp < (addExp g k s T).1.requiredExp) ∧
      ((addExp g k s T).1.isQiCondensationCap = true ∨
          (addExp g k s T).1.isMaxedOut = true →
        (addExp g k s T).1.exp ≤ (addExp g k s T).1.requiredExp) :=
  addExp_exp_bounds g k s T he hr

theorem C5_witness :
    (0 : ℚ) ≤ ({} : CultivationProgress).exp ∧
      (0 : ℚ) ≤ ({} : CultivationProgress).cultivation_rate ∧
      (0 ≤ (addExp (fun _ => 0) 0 ({} : CultivationProgress) 250).1.exp ∧
        ((addExp (fun _ => 0) 0 ({} : CultivationProgress) 250).1.isQiCondensationCap = false ∧
            (addExp (fun _ => 0) 0 ({} : CultivationProgress) 250).1.isMaxedOut = false →
          (addExp (fun _ => 0) 0 ({} : CultivationProgress) 250).1.exp <
            (addExp (fun _ => 0) 0 ({} : CultivationProgress) 250).1.requiredExp) ∧
        ((addExp (fun _ => 0) 0 ({} : CultivationProgress) 250).1.isQiCondensationCap = true ∨
            (addExp (fun _ => 0) 0 ({} : CultivationProgress) 250).1.isMaxedOut = true →
          (addExp (fun _ => 0) 0 ({} : CultivationProgress) 250).1.exp ≤
            (addExp (fun _ => 0) 0 ({} : CultivationProgress) 250).1.requiredExp)) :=
  ⟨le_refl 0, by norm_num,
    C5_exp_invariants (fun _ => 0) 0 {} 250 (le_refl 0) (by norm_num)⟩

/-- C7: the qi-quality tier never drops: `add_exp` (single calls and whole
sequences), `attempt_foundation_breakthrough`, `breakthrough_realm`,
`advance_stage` and the foundation update all keep `qi_quality` at least as
high in the quality ordering as before. -/
theorem C7_quality_monotone (g : ℕ → ℚ) (k : ℕ) (s : CultivationProgress)
    (T : ℕ) (ts : List ℕ) :
    qualityRank s.qi_quality ≤ qualityRank (addExp g k s T).1.qi_quality ∧
      qualityRank s.qi_quality ≤ qualityRank (addExpSeq g (s, k) ts).1.qi_quality ∧
      (attemptFoundationBreakthrough g k s).1.qi_quality = s.qi_quality ∧
      (breakthroughRealm g k s).1.qi_quality = s.qi_quality ∧
      qualityRank s.qi_quality ≤ qualityRank (advanceStage g k s).1.qi_quality ∧
      (s.updateFoundationProgress T).1.qi_quality = s.qi_quality :=
  ⟨addExp_quality g k s T, addExpSeq_quality g ts (s, k),
    attemptFoundationBreakthrough_quality g k s, breakthroughRealm_quality g k s,
    advanceStage_quality g k s, updateFoundationProgress_quality s T⟩

/-- C10: with the two-realm table, `add_exp` never changes the realm and
never consumes a random draw (so the tribulation-constructing branch of
`breakthrough_realm` is unreachable through ticking); the explicit
`attempt_foundation_breakthrough` with a successful draw is what moves a
character from the first realm to the second. -/
theorem C10_add_exp_preserves_realm (g : ℕ → ℚ) (k : ℕ)
    (s s' : CultivationProgress) (T : ℕ) :
    (addExp g k s T).1.realm = s.realm ∧
      (addExp g k s T).2.2 = k ∧
      (s'.foundationBarActive = true → g k ≤ s'.breakthroughChance →
        (attemptFoundationBreakthrough g k s').1.realm = Realm.foundationEstablishment ∧
          (attemptFoundationBreakthrough g k s').2.1 = true) := by
  refine ⟨addExp_realm g k s T, addExp_counter g k s T, ?_⟩
  intro ha hd
  unfold attemptFoundationBreakthrough
  rw [if_neg (by simp [ha]), if_pos hd]
  exact ⟨rfl, rfl⟩

theorem C10_witness :
    plateauFull.foundationBarActive = true ∧
      (fun _ => (0 : ℚ)) 0 ≤ plateauFull.breakthroughChance ∧
      ((attemptFoundationBreakthrough (fun _ => 0) 0 plateauFull).1.realm =
          Realm.foundationEstablishment ∧
        (attemptFoundationBreakthrough (fun _ => 0) 0 plateauFull).2.1 = true) :=
  ⟨by decide,
    by norm_num [plateauFull, breakthroughChance, foundationBarActive,
      isQiCondensationCap, maxQiLayers],
    (C10_add_exp_preserves_realm (fun _ => 0) 0 {} plateauFull 0).2.2
      (by decide)
      (by norm_num [plateauFull, breakthroughChance, foundationBarActive,
        isQiCondensationCap, maxQiLayers])⟩

/-- C6: one tick application computes `total = tick_buffer + real_ticks ×
time_flow`, applies `⌊total⌋` ticks and carries `total - ⌊total⌋` (always in
`[0,1)`) as the new buffer. -/
theorem C6_fractional_tick_carry (flow : ℚ) (g : ℕ → ℚ) (k : ℕ)
    (p : PlayerState) (realTicks : ℕ) (now : ℤ)
    (hb : 0 ≤ p.tick_buffer) (hf : 0 ≤ flow) :
    pyInt (p.tick_buffer + (realTicks : ℚ) * flow) =
        ⌊p.tick_buffer + (realTicks : ℚ) * flow⌋ ∧
      (PlayerState.applyTimeProgression flow g k p realTicks now).1.tick_buffer =
        p.tick_buffer + (realTicks : ℚ) * flow -
          (⌊p.tick_buffer + (realTicks : ℚ) * flow⌋ : ℚ) ∧
      0 ≤ (PlayerState.applyTimeProgression flow g k p realTicks now).1.tick_buffer ∧
      (PlayerState.applyTimeProgression flow g k p realTicks now).1.tick_buffer < 1 ∧
      (PlayerState.applyTimeProgression flow g k p realTicks now).1.cultivation =
        (if ⌊p.tick_buffer + (realTicks : ℚ) * flow⌋ = 0 then p.cultivation
         else (addExp g k p.cultivation
           (⌊p.tick_buffer + (realTicks : ℚ) * flow⌋).toNat).1) := by
  have hq : (0 : ℚ) ≤ p.tick_buffer + (realTicks : ℚ) * flow :=
    add_nonneg hb (mul_nonneg (by positivity) hf)
  have hpy : pyInt (p.tick_buffer + (realTicks : ℚ) * flow) =
      ⌊p.tick_buffer + (realTicks : ℚ) * flow⌋ := by
    unfold pyInt
    rw [if_neg (not_lt.mpr hq)]
  have hfr1 := Int.fract_nonneg (p.tick_buffer + (realTicks : ℚ) * flow)
  have hfr2 := Int.fract_lt_one (p.tick_buffer + (realTicks : ℚ) * flow)
  unfold Int.fract at hfr1 hfr2
  refine ⟨hpy, ?_, ?_, ?_, ?_⟩
  · rw [PlayerState.applyTimeProgression_buffer, hpy]
  · rw [PlayerState.applyTimeProgression_buffer, hpy]
    exact hfr1
  · rw [PlayerState.applyTimeProgression_buffer, hpy]
    exact hfr2
  · rw [PlayerState.applyTimeProgression_cultivation, hpy]
    split_ifs with h1 h2 <;>
      first
        | rfl
        | exact absurd (not_not.mp h1) h2

theorem C6_witness :
    (0 : ℚ) ≤ bufferPlayer.tick_buffer ∧ (0 : ℚ) ≤ (1 : ℚ) ∧
      (PlayerState.applyTimeProgression 1 (fun _ => 0) 0 bufferPlayer 1 60).1.tick_buffer =
        7/10 ∧
      (PlayerState.applyTimeProgression 1 (fun _ => 0) 0 bufferPlayer 1 60).1.cultivation =
        (addExp (fun _ => 0) 0 bufferPlayer.cultivation 1).1 := by
  have h := C6_fractional_tick_carry 1 (fun _ => 0) 0 bufferPlayer 1 60
    (by norm_num [bufferPlayer]) (by norm_num)
  have hfl : ⌊bufferPlayer.tick_buffer + ((1 : ℕ) : ℚ) * 1⌋ = 1 := by
    rw [show bufferPlayer.tick_buffer + ((1 : ℕ) : ℚ) * 1 = 17/10 by
      norm_num [bufferPlayer]]
    rw [show (1 : ℤ) = ⌊(1 : ℚ)⌋ by norm_num]
    apply Int.floor_eq_iff.mpr
    constructor <;> norm_num
  refine ⟨by norm_num [bufferPlayer], by norm_num, ?_, ?_⟩
  · rw [h.2.1, hfl]
    norm_num [bufferPlayer]
  · rw [h.2.2.2.2, hfl]
    norm_num

/-- C4 amended: the offline catch-up path is idempotent under a repeated call
with the same `now`: the second call applies zero ticks and returns the
player, the log, the draw counter and the changed flag untouched.  (The live
path deliberately floors `real_ticks` at 1 and is not idempotent, see the
counterexample.) -/
theorem C4_amended_offline_idempotent (flow : ℚ) (g : ℕ → ℚ) (k : ℕ) (now : ℤ)
    (p : PlayerState) :
    PlayerState.applyOfflineTicks flow g
        ((PlayerState.applyOfflineTicks flow g k now p).2.2.1) now
        ((PlayerState.applyOfflineTicks flow g k now p).1) =
      ((PlayerState.applyOfflineTicks flow g k now p).1, [],
        (PlayerState.applyOfflineTicks flow g k now p).2.2.1, false) := by
  by_cases hr : ((now - p.last_tick_timestamp).toNat) / SECONDS_PER_TICK = 0
  · have h1 : PlayerState.applyOfflineTicks flow g k now p = (p, [], k, false) := by
      unfold PlayerState.applyOfflineTicks
      dsimp only
      rw [hr]
      simp
    rw [h1]
    unfold PlayerState.applyOfflineTicks
    dsimp only
    rw [hr]
    simp
  · have h1 : PlayerState.applyOfflineTicks flow g k now p =
        PlayerState.applyTimeProgression flow g k p
          ((now - p.last_tick_timestamp).toNat / SECONDS_PER_TICK) now := by
      unfold PlayerState.applyOfflineTicks
      dsimp only
      rw [if_pos hr]
    have hdm := Nat.mod_add_div ((now - p.last_tick_timestamp).toNat) SECONDS_PER_TICK
    have hmlt : (now - p.last_tick_timestamp).toNat % SECONDS_PER_TICK <
        SECONDS_PER_TICK :=
      Nat.mod_lt _ (by norm_num [SECONDS_PER_TICK])
    have hnc : ¬ (now < p.last_tick_timestamp +
        (((now - p.last_tick_timestamp).toNat / SECONDS_PER_TICK : ℕ) : ℤ) *
          (SECONDS_PER_TICK : ℤ)) := by
      simp only [SECONDS_PER_TICK] at hdm hmlt hr ⊢
      omega
    have hlast : (PlayerState.applyTimeProgression flow g k p
        ((now - p.last_tick_timestamp).toNat / SECONDS_PER_TICK) now).1.last_tick_timestamp =
        p.last_tick_timestamp +
          (((now - p.last_tick_timestamp).toNat / SECONDS_PER_TICK : ℕ) : ℤ) *
            (SECONDS_PER_TICK : ℤ) := by
      rw [PlayerState.applyTimeProgression_last, if_neg hnc]
    have hr2 : ((now - (PlayerState.applyTimeProgression flow g k p
        ((now - p.last_tick_timestamp).toNat / SECONDS_PER_TICK) now).1.last_tick_timestamp).toNat) /
          SECONDS_PER_TICK = 0 := by
      rw [hlast]
      apply Nat.div_eq_of_lt
      simp only [SECONDS_PER_TICK] at hdm hmlt hr ⊢
      omega
    rw [h1]
    unfold PlayerState.applyOfflineTicks
    dsimp only
    rw [hr2]
    simp

/-- C4 counterexample: the live tick path applies one tick even when zero
time has elapsed — calling `apply_live_tick` when `last_tick_timestamp`
already equals `now` still adds exp (0 becomes 1 for the default player at
time flow 1), so the orchestrator is not idempotent under zero-elapsed calls
as claimed. -/
theorem C4_counterexample :
    (PlayerState.applyLiveTick 1 (fun _ => 0) 0 1000 livePlayer).1.cultivation.exp = 1 ∧
      livePlayer.cultivation.exp = 0 ∧ ¬ ((1 : ℚ) = 0) := by
  refine ⟨?_, rfl, by norm_num⟩
  unfold PlayerState.applyLiveTick
  dsimp only
  rw [show max (((1000 : ℤ) - livePlayer.last_tick_timestamp).toNat / SECONDS_PER_TICK) 1 = 1
    from by norm_num [livePlayer, SECONDS_PER_TICK]]
  rw [PlayerState.applyTimeProgression_cultivation]
  rw [show pyInt (livePlayer.tick_buffer + ((1 : ℕ) : ℚ) * 1) = 1 from by
    norm_num [pyInt, livePlayer]]
  rw [if_pos (by norm_num)]
  unfold addExp
  rw [if_neg (by simp [livePlayer, isMaxedOut])]
  dsimp only
  rw [addExpLoop_of_lt _ _ _ _ (by
    norm_num [livePlayer, requiredExp, requiredExpNat, realmIndex, stageIndex])]
  dsimp only
  rw [updateFoundationProgress_exp]
  norm_num [livePlayer]

/-- C1 amended: at the first-realm plateau (and not at the true final cap,
which is automatic there), `add_exp(ticks)` adds `cultivation_rate × ticks`
to exp; if the sum stays below the threshold it is kept as is, and if it
reaches the threshold the code subtracts the threshold once, appends the
"Foundation bar awakened" stage note, and clamps the remainder at the
threshold — exp is **not** simply clamped at the threshold.
`foundation_progress` advances by `ticks / FOUNDATION_FILL_TICKS` clamped to
1.0, and the "foundation bar complete" note is emitted exactly once, on the
call whose increment first carries it from below 1.0 to 1.0 (once at 1.0 the
update is a no-op, so the note can never repeat). -/
theorem C1_amended_plateau_add_exp (g : ℕ → ℚ) (k T : ℕ)
    (s : CultivationProgress) (hre : s.realm = Realm.qiCondensation)
    (hst : s.stage = Stage.peak) (hl : s.layer = maxQiLayers)
    (hfp : 0 ≤ s.foundation_progress) :
    addExp g k s T =
      ({ s with
          exp :=
            if s.exp + s.cultivation_rate * (T : ℚ) < s.requiredExp then
              s.exp + s.cultivation_rate * (T : ℚ)
            else min (s.exp + s.cultivation_rate * (T : ℚ) - s.requiredExp) s.requiredExp,
          foundation_progress :=
            if 1 ≤ s.foundation_progress then s.foundation_progress
            else min 1 (s.foundation_progress + (T : ℚ) / (FOUNDATION_FILL_TICKS : ℚ)) },
       (if s.exp + s.cultivation_rate * (T : ℚ) < s.requiredExp then []
        else ["Reached " ++ s.stageLabel ++ " of " ++ realmValue s.realm ++
          ". Foundation bar awakened."]) ++
         (if s.foundation_progress < 1 ∧
             1 ≤ s.foundation_progress + (T : ℚ) / (FOUNDATION_FILL_TICKS : ℚ) then
           ["Foundation bar complete—breakthrough chance has reached 100%."]
         else []),
       k) :=
  addExp_plateau g k T s hre hst (hl.ge) hfp

theorem C1_witness :
    plateauHalf.realm = Realm.qiCondensation ∧
      plateauHalf.stage = Stage.peak ∧
      plateauHalf.layer = maxQiLayers ∧
      (0 : ℚ) ≤ plateauHalf.foundation_progress ∧
      addExp (fun _ => 0) 0 plateauHalf 1825 =
        ({ plateauHalf with
            exp :=
              if plateauHalf.exp + plateauHalf.cultivation_rate * ((1825 : ℕ) : ℚ) <
                  plateauHalf.requiredExp then
                plateauHalf.exp + plateauHalf.cultivation_rate * ((1825 : ℕ) : ℚ)
              else min (plateauHalf.exp + plateauHalf.cultivation_rate * ((1825 : ℕ) : ℚ) -
                plateauHalf.requiredExp) plateauHalf.requiredExp,
            foundation_progress :=
              if 1 ≤ plateauHalf.foundation_progress then plateauHalf.foundation_progress
              else min 1 (plateauHalf.foundation_progress +
                ((1825 : ℕ) : ℚ) / (FOUNDATION_FILL_TICKS : ℚ)) },
         (if plateauHalf.exp + plateauHalf.cultivation_rate * ((1825 : ℕ) : ℚ) <
             plateauHalf.requiredExp then []
          else ["Reached " ++ plateauHalf.stageLabel ++ " of " ++
            realmValue plateauHalf.realm ++ ". Foundation bar awakened."]) ++
           (if plateauHalf.foundation_progress < 1 ∧
               1 ≤ plateauHalf.foundation_progress +
                 ((1825 : ℕ) : ℚ) / (FOUNDATION_FILL_TICKS : ℚ) then
             ["Foundation bar complete—breakthrough chance has reached 100%."]
           else []),
         0) :=
  ⟨rfl, rfl, rfl, by norm_num [plateauHalf],
    C1_amended_plateau_add_exp (fun _ => 0) 0 1825 plateauHalf rfl rfl rfl
      (by norm_num [plateauHalf])⟩

/-- C1 counterexample: at the plateau state with exp 7000, rate 2 and an
inactive foundation bar, `add_exp(1000)` leaves exp at 1500 — the claimed
"add and clamp at the threshold" behaviour would give
`min(7000 + 2·1000, 7500) = 7500`. -/
theorem C1_counterexample :
    (addExp (fun _ => 0) 0 plateauNearCap 1000).1.exp = 1500 ∧
      min (plateauNearCap.exp + plateauNearCap.cultivation_rate * ((1000 : ℕ) : ℚ))
        plateauNearCap.requiredExp = 7500 ∧
      ¬ ((1500 : ℚ) = 7500) := by
  have hreq : plateauNearCap.requiredExp = 7500 := by
    norm_num [plateauNearCap, requiredExp, requiredExpNat, realmIndex, stageIndex,
      maxQiLayers]
  have h := addExp_plateau (fun _ => 0) 0 1000 plateauNearCap rfl rfl
    (le_refl _) (by norm_num [plateauNearCap])
  refine ⟨?_, ?_, by norm_num⟩
  · rw [h]
    dsimp only
    rw [hreq]
    norm_num [plateauNearCap]
  · rw [hreq]
    norm_num [plateauNearCap]

lemma gatheringModifier_eq_one (t : QiType) : gatheringModifier t = 1 := rfl

/-- C8: from (first realm, layer 5, Peak, exp 0) with quality below Thin and
the rate consistent with the quality, `add_exp(ceil(required_exp / rate))`
advances to layer 6 with stage reset to Initial, upgrades the quality to
Thin, recomputes the cultivation rate from the new quality, and returns the
note mentioning the new quality. -/
theorem C8_layer6_quality_upgrade (g : ℕ → ℚ) (k : ℕ) (s : CultivationProgress)
    (hre : s.realm = Realm.qiCondensation) (hst : s.stage = Stage.peak)
    (hl : s.layer = 5) (he : s.exp = 0) (hq : s.qi_quality = QiQuality.faint)
    (hr : s.cultivation_rate = s.qiGatheringRate) :
    (addExp g k s (⌈s.requiredExp / s.cultivation_rate⌉.toNat)).1.layer = 6 ∧
      (addExp g k s (⌈s.requiredExp / s.cultivation_rate⌉.toNat)).1.stage =
        Stage.initial ∧
      (addExp g k s (⌈s.requiredExp / s.cultivation_rate⌉.toNat)).1.qi_quality =
        QiQuality.thin ∧
      (addExp g k s (⌈s.requiredExp / s.cultivation_rate⌉.toNat)).1.cultivation_rate =
        qiPerDay QiQuality.thin * gatheringModifier s.qi_type ∧
      (addExp g k s (⌈s.requiredExp / s.cultivation_rate⌉.toNat)).2.1 =
        ["Advanced to Initial 6th layer of Qi Condensation. Qi quality refined to Thin "
          ++ qiTypeValue s.qi_type ++ "."] := by
  obtain ⟨r0, st0, l0, e0, qt, qq, cr, fp⟩ := s
  dsimp only at hre hst hl he hq hr ⊢
  subst hre hst hl he hq
  have hcr : cr = 1 := by
    rw [hr]
    simp [qiGatheringRate, qiPerDay, gatheringModifier_eq_one]
  subst hcr
  have hreq : requiredExp
      { realm := Realm.qiCondensation, stage := Stage.peak, layer := 5, exp := 0,
        qi_type := qt, qi_quality := QiQuality.faint, cultivation_rate := 1,
        foundation_progress := fp } = 2500 := by
    norm_num [requiredExp, requiredExpNat, realmIndex, stageIndex]
  have hT : (⌈requiredExp
      { realm := Realm.qiCondensation, stage := Stage.peak, layer := 5, exp := 0,
        qi_type := qt, qi_quality := QiQuality.faint, cultivation_rate := 1,
        foundation_progress := fp } / (1 : ℚ)⌉).toNat = 2500 := by
    rw [hreq]
    rw [show ⌈(2500 : ℚ) / 1⌉ = 2500 by norm_num]
    rfl
  rw [hT]
  simp only [addExp, loopFuel]
  rw [if_neg (by simp [isMaxedOut])]
  rw [addExpLoop_succ g _ k _ (by
    norm_num [requiredExp, requiredExpNat, realmIndex, stageIndex])]
  simp only [advanceStage, handleLayerAdvance, upgradeQiQualityForLayer,
    refreshCultivationRate, qiGatheringRate, stageIndex, stageOfIndex,
    isLowerThan, qualityRank, maxQiLayers]
  norm_num
  rw [if_neg (by simp [isQiCondensationCap, maxQiLayers])]
  rw [if_neg (by simp [isMaxedOut])]
  rw [addExpLoop_of_lt _ _ _ _ (by
    norm_num [requiredExp, requiredExpNat, realmIndex, stageIndex])]
  simp only [updateFoundationProgress]
  rw [if_pos (by simp [foundationBarActive, isQiCondensationCap, maxQiLayers])]
  refine ⟨rfl, rfl, rfl, rfl, ?_⟩
  rw [stageLabel_qi6 _ rfl rfl rfl]
  cases qt <;> rfl

theorem C8_witness :
    layer5Peak.realm = Realm.qiCondensation ∧
      layer5Peak.stage = Stage.peak ∧
      layer5Peak.layer = 5 ∧
      layer5Peak.exp = 0 ∧
      layer5Peak.qi_quality = QiQuality.faint ∧
      layer5Peak.cultivation_rate = layer5Peak.qiGatheringRate ∧
      ((addExp (fun _ => 0) 0 layer5Peak
          (⌈layer5Peak.requiredExp / layer5Peak.cultivation_rate⌉.toNat)).1.layer = 6 ∧
        (addExp (fun _ => 0) 0 layer5Peak
          (⌈layer5Peak.requiredExp / layer5Peak.cultivation_rate⌉.toNat)).1.stage =
          Stage.initial ∧
        (addExp (fun _ => 0) 0 layer5Peak
          (⌈layer5Peak.requiredExp / layer5Peak.cultivation_rate⌉.toNat)).1.qi_quality =
          QiQuality.thin ∧
        (addExp (fun _ => 0) 0 layer5Peak
          (⌈layer5Peak.requiredExp / layer5Peak.cultivation_rate⌉.toNat)).1.cultivation_rate =
          qiPerDay QiQuality.thin * gatheringModifier layer5Peak.qi_type ∧
        (addExp (fun _ => 0) 0 layer5Peak
          (⌈layer5Peak.requiredExp / layer5Peak.cultivation_rate⌉.toNat)).2.1 =
          ["Advanced to Initial 6th layer of Qi Condensation. Qi quality refined to Thin "
            ++ qiTypeValue layer5Peak.qi_type ++ "."]) :=
  ⟨rfl, rfl, rfl, rfl, rfl,
    by norm_num [layer5Peak, qiGatheringRate, qiPerDay, gatheringModifier],
    C8_layer6_quality_upgrade (fun _ => 0) 0 layer5Peak rfl rfl rfl rfl rfl
      (by norm_num [layer5Peak, qiGatheringRate, qiPerDay, gatheringModifier])⟩

/-- C9 amended: the persistence round trip restores realm, stage, layer, exp,
qi_quality, cultivation_rate, foundation_progress, tick_buffer and
last_tick_timestamp exactly, provided the stored fields are in their valid
ranges **and** the quality is consistent with the layer (not below Thin once
layer ≥ 6) — `__post_init__` re-runs the layer-driven quality upgrade and
recomputes the rate, so a stored state violating that consistency is
repaired rather than restored (see the counterexample).  Missing keys fall
back to the dataclass defaults rather than failing. -/
theorem C9_amended_round_trip (p : PlayerState) (nowTs : ℤ)
    (hrate : p.cultivation.cultivation_rate = p.cultivation.qiGatheringRate)
    (hl1 : 1 ≤ p.cultivation.layer) (hl2 : p.cultivation.layer ≤ maxQiLayers)
    (hf1 : 0 ≤ p.cultivation.foundation_progress)
    (hf2 : p.cultivation.foundation_progress ≤ 1)
    (hq : 6 ≤ p.cultivation.layer →
      isLowerThan p.cultivation.qi_quality .thin = false) :
    (PlayerState.ofDict nowTs p.toDict).cultivation = p.cultivation ∧
      (PlayerState.ofDict nowTs p.toDict).tick_buffer = p.tick_buffer ∧
      (PlayerState.ofDict nowTs p.toDict).last_tick_timestamp =
        p.last_tick_timestamp ∧
      CultivationProgress.ofDict {} = ({} : CultivationProgress) :=
  ⟨ofDict_toDict p.cultivation hrate hl1 hl2 hf1 hf2 hq, rfl, rfl, ofDict_empty⟩

theorem C9_witness :
    ({} : PlayerState).cultivation.cultivation_rate =
        ({} : PlayerState).cultivation.qiGatheringRate ∧
      1 ≤ ({} : PlayerState).cultivation.layer ∧
      ({} : PlayerState).cultivation.layer ≤ maxQiLayers ∧
      (0 : ℚ) ≤ ({} : PlayerState).cultivation.foundation_progress ∧
      ({} : PlayerState).cultivation.foundation_progress ≤ 1 ∧
      ((PlayerState.ofDict 0 ({} : PlayerState).toDict).cultivation =
          ({} : PlayerState).cultivation ∧
        (PlayerState.ofDict 0 ({} : PlayerState).toDict).tick_buffer =
          ({} : PlayerState).tick_buffer ∧
        (PlayerState.ofDict 0 ({} : PlayerState).toDict).last_tick_timestamp =
          ({} : PlayerState).last_tick_timestamp ∧
        CultivationProgress.ofDict {} = ({} : CultivationProgress)) :=
  ⟨by norm_num [qiGatheringRate, qiPerDay, gatheringModifier],
    by decide, by decide, by norm_num, by norm_num,
    C9_amended_round_trip {} 0
      (by norm_num [qiGatheringRate, qiPerDay, gatheringModifier])
      (by decide) (by decide) (by norm_num) (by norm_num)
      (fun h => absurd h (by norm_num))⟩

/-- C9 counterexample: the player state with layer 7 and Faint quality meets
every validity requirement the claim lists (valid enums, layer in 1..15,
foundation in [0,1], rate consistent with quality and type), yet the round
trip upgrades its quality to Thin and its rate to 2 — the restoration is
not exact. -/
theorem C9_counterexample :
    1 ≤ layer7Faint.layer ∧ layer7Faint.layer ≤ maxQiLayers ∧
      (0 : ℚ) ≤ layer7Faint.foundation_progress ∧
      layer7Faint.foundation_progress ≤ 1 ∧
      layer7Faint.cultivation_rate = layer7Faint.qiGatheringRate ∧
      (CultivationProgress.ofDict layer7Faint.toDict).qi_quality ≠
        layer7Faint.qi_quality ∧
      (CultivationProgress.ofDict layer7Faint.toDict).cultivation_rate ≠
        layer7Faint.cultivation_rate := by
  refine ⟨by decide, by decide, by norm_num [layer7Faint], by norm_num [layer7Faint],
    by norm_num [layer7Faint, qiGatheringRate, qiPerDay, gatheringModifier], ?_, ?_⟩
  · show (CultivationProgress.ofDict layer7Faint.toDict).qi_quality ≠ QiQuality.faint
    decide
  · rw [show (CultivationProgress.ofDict layer7Faint.toDict).cultivation_rate =
      qiPerDay QiQuality.thin * gatheringModifier QiType.spiritual from rfl]
    norm_num [layer7Faint, qiPerDay, gatheringModifier]

end HeavenAndEarth
